import Mathlib

/-!
Shallow embedding of the Locator layer of playwright-rust
(`src/imp/locator.rs`).  The selector algebra and the dual-mode dispatch are
translated function by function from the source; the frame delegate, element
handles and the message channel are abstract environments, following the
external-interface contracts of the specification (sections 4.4 and 6).
f64 timeout / delay / position values are carried opaquely and are modelled
as `Int`; the code never computes with them, it only passes them through.
-/

/-- Error taxonomy as the Locator layer sees it: `crate::Error::ObjectNotFound`
("target not found"), and every other error carried opaquely. -/
inductive Err
  | objectNotFound
  | other (msg : String)
deriving DecidableEq

/-- Result of one Locator operation: a Rust `Result`, plus an explicit
constructor recording a Rust panic (from `expect`). -/
inductive Outcome (α : Type)
  | ok (a : α)
  | err (e : Err)
  | panicked (msg : String)

/-- Lift a fallible delegate reply into an operation outcome. -/
def Outcome.ofE {α : Type} : Except Err α → Outcome α
  | .ok a => .ok a
  | .error e => .err e

/-- One call issued to the frame delegate, an element handle, or the peer
channel.  Operations below also return the ordered list of the calls they
performed, so that routing properties (which backend primitive ran, and in
which order) are visible. -/
inductive FCall
  | qsa (selector : String)
  | qs (selector : String)
  | fclick (selector : String)
  | fdblclick (selector : String)
  | ffill (selector : String) (value : String)
  | fhover (selector : String)
  | fcheck (selector : String)
  | funcheck (selector : String)
  | fsetInputFiles (selector : String)
  | ffocus (selector : String)
  | fselectOption (selector : String)
  | ftextContent (selector : String) (timeout : Option Int)
  | finnerText (selector : String)
  | finnerHtml (selector : String)
  | fgetAttribute (selector : String) (name : String)
  | feval (js : String)
  | fis (which : String) (selector : String)
  | efill (value : String)
  | epress (key : String)
  | etype (text : String)
  | esetInputFiles
  | etextContent
  | egetAttribute (name : String)
  | peerSend (method : String)
deriving DecidableEq

/-- Outcome of one Locator operation together with the calls it made. -/
structure OpRes (α : Type) where
  res : Outcome α
  trace : List FCall

/-! ## String scanning helpers (Rust `str` methods used by the source) -/

/-- Rust `str::find(pattern)`: index of the first occurrence of `pat` in `s`
(character index; every pattern the source searches for is ASCII). -/
def findSub : List Char → List Char → Option Nat
  | [], pat => if pat.isPrefixOf ([] : List Char) then some 0 else none
  | c :: t, pat =>
    if pat.isPrefixOf (c :: t) then some 0
    else (findSub t pat).map (fun n => n + 1)

/-- Rust `str::contains(substring)`. -/
def containsSub (s pat : List Char) : Bool := (findSub s pat).isSome

/-- Rust `str::starts_with(prefix_str)`. -/
def strStartsWith (s pat : String) : Bool := pat.data.isPrefixOf s.data

/-- Value of an ASCII decimal digit. -/
def digitVal (c : Char) : Option Nat :=
  if 48 ≤ c.toNat && c.toNat ≤ 57 then some (c.toNat - 48) else none

/-- One step of decimal accumulation; `none` once any non-digit was seen. -/
def pushDigit (acc : Option Nat) (c : Char) : Option Nat :=
  match acc with
  | none => none
  | some n =>
    match digitVal c with
    | some d => some (n * 10 + d)
    | none => none

/-- Accumulate a digit string left to right. -/
def parseDigits (s : List Char) : Option Nat := s.foldl pushDigit (some 0)

/-- Rust `str::parse::<usize>()`: an optional leading `+`, then a non-empty
run of decimal digits; values outside the 64-bit usize range are rejected
(the accumulated value only grows, so checking the final value is
equivalent to Rust's overflow check during parsing). -/
def parseUsize (s : List Char) : Option Nat :=
  let s2 := match s with
            | c :: t => if c == '+' then t else c :: t
            | [] => []
  match s2 with
  | [] => none
  | _ :: _ =>
    match parseDigits s2 with
    | some n => if n < 2 ^ 64 then some n else none
    | none => none

/-- Decimal digits of `n`, most significant first, on structural fuel
(any fuel above `n` is enough, and `natToDecimal` supplies it). -/
def natToDecimalAux : Nat → Nat → List Char
  | 0, _ => []
  | fuel + 1, n =>
    if n < 10 then [Char.ofNat (48 + n)]
    else natToDecimalAux fuel (n / 10) ++ [Char.ofNat (48 + n % 10)]

/-- Decimal digits of `n`, most significant first (what Rust
`format!` prints for an unsigned integer). -/
def natToDecimal (n : Nat) : List Char := natToDecimalAux (n + 1) n

/-- What Rust `format!` prints for an `i32` value. -/
def intToDecimal (i : Int) : List Char :=
  if i < 0 then '-' :: natToDecimal (-i).toNat else natToDecimal i.toNat

/-- Decimal rendering of a `Nat` as a string. -/
def natRepr (n : Nat) : String := String.mk (natToDecimal n)

/-- The single-quote character (written by code point to keep source plain). -/
def squote : Char := Char.ofNat 39

/-- The backslash character. -/
def backslash : Char := Char.ofNat 92

/-- Rust `str::replace("'", "\\'")` as used to escape selector text before
embedding it in a JavaScript source string. -/
def escapeSingleQuotes (s : String) : String :=
  String.mk (s.data.foldr
    (fun c acc => if c == squote then backslash :: squote :: acc else c :: acc) [])

/-! ## Protocol values and external environments -/

/-- JSON-shaped protocol / evaluation value (spec section 6).  `guidV` stands
for the object-reference replies the peer sends for chaining calls. -/
inductive JsonV
  | null
  | str (s : String)
  | num (n : Int)
  | boolV (b : Bool)
  | guidV (g : String)
deriving DecidableEq

/-- `serde_json::Value::as_str`. -/
def JsonV.asStr : JsonV → Option String
  | .str s => some s
  | _ => none

/-- `serde_json::Value::to_string` for the non-string, non-null shapes the
fallback path can still receive. -/
def JsonV.toStringRepr : JsonV → String
  | .null => "null"
  | .str s => s
  | .num n => String.mk (intToDecimal n)
  | .boolV b => if b then "true" else "false"
  | .guidV g => g

/-- `only_str` from the message-correlation core: the reply must be a plain
string. -/
def onlyStr : JsonV → Except Err String
  | .str s => .ok s
  | _ => .error (.other "invalid params")

/-- `only_u64` from the message-correlation core: the reply must be a
non-negative number. -/
def onlyU64 : JsonV → Except Err Nat
  | .num n => if 0 ≤ n then .ok n.toNat else .error (.other "invalid params")
  | _ => .error (.other "invalid params")

/-- `only_guid` from the message-correlation core: the reply must carry an
object guid. -/
def onlyGuid : JsonV → Except Err String
  | .guidV g => .ok g
  | _ => .error (.other "invalid params")

/-- Mouse button option. -/
inductive MouseButton
  | left
  | middle
  | right
deriving DecidableEq

/-- Keyboard modifier option. -/
inductive KeyboardModifier
  | alt
  | control
  | meta
  | shift
deriving DecidableEq

/-- Click position option (f64 coordinates carried opaquely). -/
structure Position where
  x : Int
  y : Int
deriving DecidableEq

/-- `element_handle::Opt`, a select-option criterion. -/
inductive Opt
  | value (s : String)
  | label (s : String)
  | index (n : Nat)
deriving DecidableEq

/-! Locator-level argument records (`src/imp/locator.rs`, bottom of file). -/

/-- Locator `ClickArgs`. -/
structure ClickArgs where
  button : Option MouseButton := none
  clickCount : Option Int := none
  delay : Option Int := none
  position : Option Position := none
  modifiers : Option (List KeyboardModifier) := none
  force : Option Bool := none
  noWaitAfter : Option Bool := none
  timeout : Option Int := none

/-- Locator `FillArgs`. -/
structure FillArgs where
  force : Option Bool := none
  noWaitAfter : Option Bool := none
  timeout : Option Int := none

/-- Locator `HoverArgs`. -/
structure HoverArgs where
  position : Option Position := none
  modifiers : Option (List KeyboardModifier) := none
  force : Option Bool := none
  timeout : Option Int := none

/-- Locator `CheckArgs`. -/
structure CheckArgs where
  position : Option Position := none
  force : Option Bool := none
  noWaitAfter : Option Bool := none
  timeout : Option Int := none

/-- Locator `PressArgs`. -/
structure PressArgs where
  delay : Option Int := none
  noWaitAfter : Option Bool := none
  timeout : Option Int := none

/-- Locator `TypeArgs`. -/
structure TypeArgs where
  delay : Option Int := none
  noWaitAfter : Option Bool := none
  timeout : Option Int := none

/-- Locator `ClearArgs`. -/
structure ClearArgs where
  force : Option Bool := none
  noWaitAfter : Option Bool := none
  timeout : Option Int := none

/-- Locator `SelectOptionArgs`. -/
structure SelectOptionArgs where
  values : Option (List String) := none
  labels : Option (List String) := none
  indices : Option (List Int) := none
  force : Option Bool := none
  noWaitAfter : Option Bool := none
  timeout : Option Int := none

/-- Locator `FilterOptions`. -/
structure FilterOptions where
  hasText : Option String := none
  hasNotText : Option String := none
  has : Option String := none
  hasNot : Option String := none

/-- `element_handle::SetInputFilesArgs` (file payload carried opaquely). -/
structure SetInputFilesArgs where
  files : List String := []
  timeout : Option Int := none
  noWaitAfter : Option Bool := none

/-! Frame-level argument records (`src/imp/frame.rs`, outside `src/`; their
fields are exactly the ones the Locator code assigns, per the frame-delegate
contract of spec section 6). -/

/-- Frame `ClickArgs` as filled in by the Locator (selector plus the copied
options; `trial` defaults to none in the constructor). -/
structure FClickArgs where
  selector : String
  modifiers : Option (List KeyboardModifier) := none
  position : Option Position := none
  delay : Option Int := none
  button : Option MouseButton := none
  clickCount : Option Int := none
  timeout : Option Int := none
  force : Option Bool := none
  noWaitAfter : Option Bool := none
  trial : Option Bool := none

/-- Frame `FillArgs`. -/
structure FFillArgs where
  selector : String
  value : String
  timeout : Option Int := none
  noWaitAfter : Option Bool := none

/-- Frame `HoverArgs`. -/
structure FHoverArgs where
  selector : String
  position : Option Position := none
  modifiers : Option (List KeyboardModifier) := none
  force : Option Bool := none
  timeout : Option Int := none

/-- Frame `CheckArgs`. -/
structure FCheckArgs where
  selector : String
  position : Option Position := none
  force : Option Bool := none
  noWaitAfter : Option Bool := none
  timeout : Option Int := none

/-- Frame `SetInputFilesArgs`. -/
structure FSetInputFilesArgs where
  selector : String
  files : List String := []
  timeout : Option Int := none
  noWaitAfter : Option Bool := none

/-- Frame `SelectOptionArgs`. -/
structure FSelectOptionArgs where
  selector : String
  options : Option (List Opt) := none
  timeout : Option Int := none
  noWaitAfter : Option Bool := none

/-- Element-handle `FillArgs`. -/
structure EFillArgs where
  value : String
  timeout : Option Int := none
  noWaitAfter : Option Bool := none

/-- Element-handle `PressArgs`. -/
structure EPressArgs where
  key : String
  delay : Option Int := none
  timeout : Option Int := none
  noWaitAfter : Option Bool := none

/-- Element-handle `TypeArgs`. -/
structure ETypeArgs where
  text : String
  delay : Option Int := none
  timeout : Option Int := none
  noWaitAfter : Option Bool := none

/-- An element handle resolved by the frame delegate, abstracted as its
response behaviour (spec section 6).  The Locator code only ever invokes
these one-shot primitives on it. -/
structure ElementHandle where
  fillE : EFillArgs → Except Err Unit
  getAttributeE : String → Except Err (Option String)
  textContentE : Except Err (Option String)
  setInputFilesE : SetInputFilesArgs → Except Err Unit
  pressE : EPressArgs → Except Err Unit
  typeE : ETypeArgs → Except Err Unit

/-- The frame delegate (spec sections 2 and 6): one primitive per
action/query, a selector resolver, and a script evaluator.  Queries return
weak element references, modelled as `Option ElementHandle` (the value of a
successful or failed upgrade). -/
structure FrameEnv where
  querySelectorAll : String → Except Err (List (Option ElementHandle))
  querySelector : String → Except Err (Option (Option ElementHandle))
  click : FClickArgs → Except Err Unit
  dblclick : FClickArgs → Except Err Unit
  fill : FFillArgs → Except Err Unit
  hover : FHoverArgs → Except Err Unit
  check : FCheckArgs → Except Err Unit
  uncheck : FCheckArgs → Except Err Unit
  setInputFiles : FSetInputFilesArgs → Except Err Unit
  focus : String → Option Int → Except Err Unit
  selectOption : FSelectOptionArgs → Except Err (List String)
  textContent : String → Option Int → Except Err (Option String)
  innerText : String → Option Int → Except Err String
  innerHtml : String → Option Int → Except Err String
  getAttribute : String → String → Option Int → Except Err (Option String)
  evaluate : String → Except Err JsonV
  isVisible : String → Option Int → Except Err Bool
  isHidden : String → Option Int → Except Err Bool
  isEnabled : String → Option Int → Except Err Bool
  isDisabled : String → Option Int → Except Err Bool
  isChecked : String → Option Int → Except Err Bool
  isEditable : String → Option Int → Except Err Bool

/-- Modelled from the spec: the protocol channel behind a registry-backed
object (spec section 4.4, `send(guid, method, args) -> Future<Reply>`) and
the guid-keyed registry lookup that `get_object!` performs (spec
section 4.2).  The channel core lives in `src/imp/core`, which is not part
of the given sources; arguments are serialized opaquely, so `send` is keyed
by method name, and `lookupGuid` returns only the identity of the object the
registry resolves the returned guid to. -/
structure ChannelOwner where
  send : String → Except Err JsonV
  lookupGuid : String → Except Err String

/-- The Locator record (`struct Locator`): an optional protocol channel
(server-side mode), the selector, and a weak frame back-reference, modelled
as the `Option FrameEnv` its upgrade yields. -/
structure Locator where
  channel : Option ChannelOwner
  selector : String
  frame : Option FrameEnv

/-- `Locator::new_client_side`. -/
def Locator.newClientSide (frame : Option FrameEnv) (selector : String) : Locator :=
  { channel := none, selector := selector, frame := frame }

/-- A `Weak<Locator>` as returned by the chaining operations: either the
client-synthesized locator kept alive by the internal registry, or a
registry-backed reference identified by guid. -/
inductive WeakLocator
  | clientSide (l : Locator)
  | registryRef (guid : String)

/-- The panic message of the `expect` in `impl RemoteObject for Locator`:
the channel accessor on a locator whose `channel` is `None`. -/
def channelExpectMsg : String :=
  "RemoteObject methods should only be called on server-side locators"

/-- `send_message!(self, method, args)` as the Locator uses it: fetch the
channel through the `RemoteObject` accessor (which panics with
`channelExpectMsg` when `channel` is `None`, per the `expect` in the
source), then send and await the reply, propagating channel errors.
The channel internals are modelled from the spec (section 4.4); arguments
are elided as opaque. -/
def Locator.sendMessage (l : Locator) (method : String) : OpRes JsonV :=
  match l.channel with
  | none => ⟨.panicked channelExpectMsg, []⟩
  | some ch =>
    match ch.send method with
    | .ok v => ⟨.ok v, [.peerSend method]⟩
    | .error e => ⟨.err e, [.peerSend method]⟩

/-! ## Selector algebra: marker parsing and XPath classification -/

/-- The marker infix `")>>>nth-index-"` (14 characters). -/
def nthIndexPat : List Char := ")>>>nth-index-".data

/-- The CSS infix `":nth-of-type("` (13 characters). -/
def nthOfTypePat : List Char := ":nth-of-type(".data

/-- The nth-index marker scan shared by `fill`, `set_input_files`,
`text_content`, `get_attribute` and `input_value`:
`selector.starts_with("(") && selector.contains(")>>>nth-index-")`, then
`find` the marker, slice out the base selector (dropping the outer
parenthesis) and the index text after the marker, and `parse::<usize>` it.
`none` covers every way the staged scan falls through to the default path
(guard false, or a malformed index). -/
def parseNthMarker (selector : String) : Option (String × Nat) :=
  if ("(".data).isPrefixOf selector.data then
    match findSub selector.data nthIndexPat with
    | some closeParen =>
      match parseUsize (selector.data.drop (closeParen + 14)) with
      | some index => some (String.mk ((selector.data.take closeParen).drop 1), index)
      | none => none
    | none => none
  else none

/-- The `:nth-of-type(` scan in `text_content`: find the infix, take the
base selector before it, find the closing parenthesis after it, and parse
the 1-based position.  `none` again covers every fall-through. -/
def parseNthOfType (selector : String) : Option (String × Nat) :=
  match findSub selector.data nthOfTypePat with
  | some nthPos =>
    match findSub (selector.data.drop (nthPos + 13)) [')'] with
    | some closeParen =>
      match parseUsize ((selector.data.drop (nthPos + 13)).take closeParen) with
      | some cssIndex => some (String.mk (selector.data.take nthPos), cssIndex)
      | none => none
    | none => none
  | none => none

/-- `Locator::is_complex_xpath`, applied to the selector text: union
operators or ancestor/descendant/following/preceding axes are known to make
the remote query engine hang. -/
def isComplexXpathSel (selector : String) : Bool :=
  containsSub selector.data "|".data ||
  containsSub selector.data "ancestor::".data ||
  containsSub selector.data "descendant::".data ||
  containsSub selector.data "following::".data ||
  containsSub selector.data "preceding::".data

/-- The JavaScript source built by `handle_complex_xpath_text_content`
around the escaped XPath expression (the Rust raw-string template, with its
layout whitespace compressed; braces and quotes written by code point). -/
def complexXpathJs (xpathExpr : String) : String :=
  "(function() \x7b try \x7b const result = document.evaluate(\x27" ++
  escapeSingleQuotes xpathExpr ++
  "\x27, document, null, XPathResult.FIRST_ORDERED_NODE_TYPE, null); " ++
  "const node = result.singleNodeValue; return node ? node.textContent : null; \x7d " ++
  "catch (error) \x7b console.error(\x27XPath evaluation error:\x27, error); return null; \x7d \x7d)()"

/-- The JavaScript source `input_value` builds for a marker selector. -/
def inputValueJsIndexed (base : String) (index : Nat) : String :=
  "(() => \x7b const elements = document.querySelectorAll(\x27" ++
  escapeSingleQuotes base ++
  "\x27); const element = elements[" ++ natRepr index ++
  "]; return element ? (element.value || \x27\x27) : \x27\x27; \x7d)()"

/-- The JavaScript source `input_value` builds for a plain selector. -/
def inputValueJs (selector : String) : String :=
  "(() => \x7b const element = document.querySelector(\x27" ++
  escapeSingleQuotes selector ++
  "\x27); return element ? (element.value || \x27\x27) : \x27\x27; \x7d)()"

/-- `frame.evaluate::<(), String>`: the reply must deserialize as a string. -/
def evalAsString (v : JsonV) : Except Err String :=
  match v with
  | .str s => .ok s
  | _ => .error (.other "invalid params")

/-! ## Locator operations (`impl Locator`), in source order -/

/-- `Locator::click`: upgrade the frame, copy the options into frame
`ClickArgs` alongside the selector, and delegate; a dead frame is
`ObjectNotFound`. -/
def Locator.click (l : Locator) (args : ClickArgs) : OpRes Unit :=
  match l.frame with
  | some frame =>
    let frameArgs : FClickArgs :=
      { selector := l.selector, modifiers := args.modifiers, position := args.position,
        delay := args.delay, button := args.button, clickCount := args.clickCount,
        timeout := args.timeout, force := args.force, noWaitAfter := args.noWaitAfter,
        trial := none }
    ⟨Outcome.ofE (frame.click frameArgs), [.fclick l.selector]⟩
  | none => ⟨.err .objectNotFound, []⟩

/-- `Locator::dblclick`. -/
def Locator.dblclick (l : Locator) (args : ClickArgs) : OpRes Unit :=
  match l.frame with
  | some frame =>
    let frameArgs : FClickArgs :=
      { selector := l.selector, modifiers := args.modifiers, position := args.position,
        delay := args.delay, button := args.button, clickCount := args.clickCount,
        timeout := args.timeout, force := args.force, noWaitAfter := args.noWaitAfter,
        trial := none }
    ⟨Outcome.ofE (frame.dblclick frameArgs), [.fdblclick l.selector]⟩
  | none => ⟨.err .objectNotFound, []⟩

/-- `Locator::fill`: after the frame upgrade, the nth-index marker scan; a
parsed marker queries the base selector and fills the element at the index
(out of range is `ObjectNotFound`; a dead element weak reference falls
through to the regular path); otherwise the selector is issued as-is. -/
def Locator.fill (l : Locator) (value : String) (args : FillArgs) : OpRes Unit :=
  match l.frame with
  | some frame =>
    match parseNthMarker l.selector with
    | some (baseSelector, index) =>
      match frame.querySelectorAll baseSelector with
      | .error e => ⟨.err e, [.qsa baseSelector]⟩
      | .ok elements =>
        match elements.get? index with
        | some (some element) =>
          ⟨Outcome.ofE (element.fillE
            { value := value, timeout := args.timeout, noWaitAfter := args.noWaitAfter }),
           [.qsa baseSelector, .efill value]⟩
        | some none =>
          ⟨Outcome.ofE (frame.fill
            { selector := l.selector, value := value, timeout := args.timeout,
              noWaitAfter := args.noWaitAfter }),
           [.qsa baseSelector, .ffill l.selector value]⟩
        | none => ⟨.err .objectNotFound, [.qsa baseSelector]⟩
    | none =>
      ⟨Outcome.ofE (frame.fill
        { selector := l.selector, value := value, timeout := args.timeout,
          noWaitAfter := args.noWaitAfter }),
       [.ffill l.selector value]⟩
  | none => ⟨.err .objectNotFound, []⟩

/-- `Locator::hover`. -/
def Locator.hover (l : Locator) (args : HoverArgs) : OpRes Unit :=
  match l.frame with
  | some frame =>
    ⟨Outcome.ofE (frame.hover
      { selector := l.selector, position := args.position, modifiers := args.modifiers,
        force := args.force, timeout := args.timeout }),
     [.fhover l.selector]⟩
  | none => ⟨.err .objectNotFound, []⟩

/-- `Locator::check`. -/
def Locator.check (l : Locator) (args : CheckArgs) : OpRes Unit :=
  match l.frame with
  | some frame =>
    ⟨Outcome.ofE (frame.check
      { selector := l.selector, position := args.position, force := args.force,
        noWaitAfter := args.noWaitAfter, timeout := args.timeout }),
     [.fcheck l.selector]⟩
  | none => ⟨.err .objectNotFound, []⟩

/-- `Locator::uncheck`. -/
def Locator.uncheck (l : Locator) (args : CheckArgs) : OpRes Unit :=
  match l.frame with
  | some frame =>
    ⟨Outcome.ofE (frame.uncheck
      { selector := l.selector, position := args.position, force := args.force,
        noWaitAfter := args.noWaitAfter, timeout := args.timeout }),
     [.funcheck l.selector]⟩
  | none => ⟨.err .objectNotFound, []⟩

/-- `Locator::press`: resolve one element via `query_selector`, then press
on the handle; no match, or a dead handle, is `ObjectNotFound`. -/
def Locator.press (l : Locator) (key : String) (args : PressArgs) : OpRes Unit :=
  match l.frame with
  | some frame =>
    match frame.querySelector l.selector with
    | .error e => ⟨.err e, [.qs l.selector]⟩
    | .ok (some (some element)) =>
      ⟨Outcome.ofE (element.pressE
        { key := key, delay := args.delay, timeout := args.timeout,
          noWaitAfter := args.noWaitAfter }),
       [.qs l.selector, .epress key]⟩
    | .ok (some none) => ⟨.err .objectNotFound, [.qs l.selector]⟩
    | .ok none => ⟨.err .objectNotFound, [.qs l.selector]⟩
  | none => ⟨.err .objectNotFound, []⟩

/-- `Locator::set_input_files`: marker scan like `fill`, but both an
out-of-range index and a dead element weak reference end in
`ObjectNotFound`. -/
def Locator.setInputFiles (l : Locator) (args : SetInputFilesArgs) : OpRes Unit :=
  match l.frame with
  | some frame =>
    match parseNthMarker l.selector with
    | some (baseSelector, index) =>
      match frame.querySelectorAll baseSelector with
      | .error e => ⟨.err e, [.qsa baseSelector]⟩
      | .ok elements =>
        match elements.get? index with
        | some (some element) =>
          ⟨Outcome.ofE (element.setInputFilesE args), [.qsa baseSelector, .esetInputFiles]⟩
        | some none => ⟨.err .objectNotFound, [.qsa baseSelector]⟩
        | none => ⟨.err .objectNotFound, [.qsa baseSelector]⟩
    | none =>
      ⟨Outcome.ofE (frame.setInputFiles
        { selector := l.selector, files := args.files, timeout := args.timeout,
          noWaitAfter := args.noWaitAfter }),
       [.fsetInputFiles l.selector]⟩
  | none => ⟨.err .objectNotFound, []⟩

/-- `Locator::focus`. -/
def Locator.focus (l : Locator) (timeout : Option Int) : OpRes Unit :=
  match l.frame with
  | some frame =>
    ⟨Outcome.ofE (frame.focus l.selector timeout), [.ffocus l.selector]⟩
  | none => ⟨.err .objectNotFound, []⟩

/-- `Locator::blur`: sends `"blur"` over the protocol channel without any
frame check; the reply value is discarded (`let _ = send_message!`), channel
errors still propagate through the macro. -/
def Locator.blur (l : Locator) (_timeout : Option Int) : OpRes Unit :=
  match l.sendMessage "blur" with
  | ⟨.ok _, t⟩ => ⟨.ok (), t⟩
  | ⟨.err e, t⟩ => ⟨.err e, t⟩
  | ⟨.panicked m, t⟩ => ⟨.panicked m, t⟩

/-- `Locator::clear`: a server-side locator sends `"clear"`; a
client-synthesized locator is `fill("")` with the same option set. -/
def Locator.clear (l : Locator) (args : ClearArgs) : OpRes Unit :=
  match l.channel with
  | some ch =>
    match ch.send "clear" with
    | .ok _ => ⟨.ok (), [.peerSend "clear"]⟩
    | .error e => ⟨.err e, [.peerSend "clear"]⟩
  | none =>
    l.fill ""
      { force := args.force, noWaitAfter := args.noWaitAfter, timeout := args.timeout }

/-- `Locator::type` (Rust `r#type`): like `press`, resolve one element and
type on the handle. -/
def Locator.typeText (l : Locator) (text : String) (args : TypeArgs) : OpRes Unit :=
  match l.frame with
  | some frame =>
    match frame.querySelector l.selector with
    | .error e => ⟨.err e, [.qs l.selector]⟩
    | .ok (some (some element)) =>
      ⟨Outcome.ofE (element.typeE
        { text := text, delay := args.delay, timeout := args.timeout,
          noWaitAfter := args.noWaitAfter }),
       [.qs l.selector, .etype text]⟩
    | .ok (some none) => ⟨.err .objectNotFound, [.qs l.selector]⟩
    | .ok none => ⟨.err .objectNotFound, [.qs l.selector]⟩
  | none => ⟨.err .objectNotFound, []⟩

/-- The `i as usize` cast applied to select-option indices. -/
def i32ToUsize (i : Int) : Nat := (i % (2 : Int) ^ 64).toNat

/-- `Locator::select_option`: convert values, labels and indices (in that
order) into the frame delegate's criteria list; an empty list stays
`None`. -/
def Locator.selectOption (l : Locator) (args : SelectOptionArgs) : OpRes (List String) :=
  match l.frame with
  | some frame =>
    let options : List Opt :=
      (args.values.getD []).map Opt.value ++
      (args.labels.getD []).map Opt.label ++
      (args.indices.getD []).map (fun i => Opt.index (i32ToUsize i))
    ⟨Outcome.ofE (frame.selectOption
      { selector := l.selector,
        options := if options.isEmpty then none else some options,
        timeout := args.timeout, noWaitAfter := args.noWaitAfter }),
     [.fselectOption l.selector]⟩
  | none => ⟨.err .objectNotFound, []⟩

/-- `Locator::handle_complex_xpath_text_content`: strip the `xpath=`
prefix, evaluate the equivalent `document.evaluate` script in the page, and
interpret the JSON reply; if the script evaluation itself fails, fall back
to the native `text_content` query (with `None` for the timeout to avoid a
double timeout) as a last resort. -/
def Locator.handleComplexXpathTextContent (l : Locator) (frame : FrameEnv)
    (_timeout : Option Int) : OpRes (Option String) :=
  let xpathExpr := String.mk (l.selector.data.drop 6)
  let jsCode := complexXpathJs xpathExpr
  match frame.evaluate jsCode with
  | .ok result =>
    match result.asStr with
    | some s => ⟨.ok (some s), [.feval jsCode]⟩
    | none =>
      if result = .null then ⟨.ok none, [.feval jsCode]⟩
      else ⟨.ok (some result.toStringRepr), [.feval jsCode]⟩
  | .error _ =>
    ⟨Outcome.ofE (frame.textContent l.selector none),
     [.feval jsCode, .ftextContent l.selector none]⟩

/-- `Locator::text_content`: first the complex-XPath reroute, then the
nth-index marker scan (out of range and dead elements both yield
`Ok(None)`), then the `:nth-of-type(` scan with its 1-based to 0-based
conversion (`saturating_sub`), and finally the plain delegate query. -/
def Locator.textContent (l : Locator) (timeout : Option Int) : OpRes (Option String) :=
  match l.frame with
  | some frame =>
    if strStartsWith l.selector "xpath=" && isComplexXpathSel l.selector then
      l.handleComplexXpathTextContent frame timeout
    else
      match parseNthMarker l.selector with
      | some (baseSelector, index) =>
        match frame.querySelectorAll baseSelector with
        | .error e => ⟨.err e, [.qsa baseSelector]⟩
        | .ok elements =>
          match elements.get? index with
          | some (some element) =>
            ⟨Outcome.ofE element.textContentE, [.qsa baseSelector, .etextContent]⟩
          | some none => ⟨.ok none, [.qsa baseSelector]⟩
          | none => ⟨.ok none, [.qsa baseSelector]⟩
      | none =>
        match parseNthOfType l.selector with
        | some (baseSelector, cssIndex) =>
          match frame.querySelectorAll baseSelector with
          | .error e => ⟨.err e, [.qsa baseSelector]⟩
          | .ok elements =>
            match elements.get? (cssIndex - 1) with
            | some (some element) =>
              ⟨Outcome.ofE element.textContentE, [.qsa baseSelector, .etextContent]⟩
            | some none => ⟨.ok none, [.qsa baseSelector]⟩
            | none => ⟨.ok none, [.qsa baseSelector]⟩
        | none =>
          ⟨Outcome.ofE (frame.textContent l.selector timeout),
           [.ftextContent l.selector timeout]⟩
  | none => ⟨.err .objectNotFound, []⟩

/-- `Locator::inner_text`. -/
def Locator.innerText (l : Locator) (timeout : Option Int) : OpRes String :=
  match l.frame with
  | some frame =>
    ⟨Outcome.ofE (frame.innerText l.selector timeout), [.finnerText l.selector]⟩
  | none => ⟨.err .objectNotFound, []⟩

/-- `Locator::inner_html`. -/
def Locator.innerHtml (l : Locator) (timeout : Option Int) : OpRes String :=
  match l.frame with
  | some frame =>
    ⟨Outcome.ofE (frame.innerHtml l.selector timeout), [.finnerHtml l.selector]⟩
  | none => ⟨.err .objectNotFound, []⟩

/-- `Locator::get_attribute`: the nth-index marker scan; out of range is
`Ok(None)`, while a dead element weak reference falls through to the regular
path, which issues the (marker) selector as-is. -/
def Locator.getAttribute (l : Locator) (name : String) (timeout : Option Int) :
    OpRes (Option String) :=
  match l.frame with
  | some frame =>
    match parseNthMarker l.selector with
    | some (baseSelector, index) =>
      match frame.querySelectorAll baseSelector with
      | .error e => ⟨.err e, [.qsa baseSelector]⟩
      | .ok elements =>
        match elements.get? index with
        | some (some element) =>
          ⟨Outcome.ofE (element.getAttributeE name), [.qsa baseSelector, .egetAttribute name]⟩
        | some none =>
          ⟨Outcome.ofE (frame.getAttribute l.selector name timeout),
           [.qsa baseSelector, .fgetAttribute l.selector name]⟩
        | none => ⟨.ok none, [.qsa baseSelector]⟩
    | none =>
      ⟨Outcome.ofE (frame.getAttribute l.selector name timeout),
       [.fgetAttribute l.selector name]⟩
  | none => ⟨.err .objectNotFound, []⟩

/-- `Locator::input_value`: with a live frame, evaluate a value-extraction
script (indexed for marker selectors, plain otherwise); without one, fall
back to the server-side protocol path (`send_message!`, which panics on a
client-synthesized locator). -/
def Locator.inputValue (l : Locator) (_timeout : Option Int) : OpRes String :=
  match l.frame with
  | some frame =>
    match parseNthMarker l.selector with
    | some (baseSelector, index) =>
      let jsCode := inputValueJsIndexed baseSelector index
      ⟨Outcome.ofE ((frame.evaluate jsCode).bind evalAsString), [.feval jsCode]⟩
    | none =>
      let jsCode := inputValueJs l.selector
      ⟨Outcome.ofE ((frame.evaluate jsCode).bind evalAsString), [.feval jsCode]⟩
  | none =>
    match l.sendMessage "inputValue" with
    | ⟨.ok v, t⟩ =>
      match onlyStr v with
      | .ok s => ⟨.ok s, t⟩
      | .error e => ⟨.err e, t⟩
    | ⟨.err e, t⟩ => ⟨.err e, t⟩
    | ⟨.panicked m, t⟩ => ⟨.panicked m, t⟩

/-- `Locator::count`: a server-side locator asks the peer; a
client-synthesized locator counts `query_selector_all` matches. -/
def Locator.count (l : Locator) : OpRes Nat :=
  match l.channel with
  | some ch =>
    match ch.send "count" with
    | .ok v =>
      match onlyU64 v with
      | .ok n => ⟨.ok n, [.peerSend "count"]⟩
      | .error e => ⟨.err e, [.peerSend "count"]⟩
    | .error e => ⟨.err e, [.peerSend "count"]⟩
  | none =>
    match l.frame with
    | some frame =>
      match frame.querySelectorAll l.selector with
      | .ok elements => ⟨.ok elements.length, [.qsa l.selector]⟩
      | .error e => ⟨.err e, [.qsa l.selector]⟩
    | none => ⟨.err .objectNotFound, []⟩

/-- `Locator::is_visible`. -/
def Locator.isVisible (l : Locator) (timeout : Option Int) : OpRes Bool :=
  match l.frame with
  | some frame =>
    ⟨Outcome.ofE (frame.isVisible l.selector timeout), [.fis "isVisible" l.selector]⟩
  | none => ⟨.err .objectNotFound, []⟩

/-- `Locator::is_hidden`. -/
def Locator.isHidden (l : Locator) (timeout : Option Int) : OpRes Bool :=
  match l.frame with
  | some frame =>
    ⟨Outcome.ofE (frame.isHidden l.selector timeout), [.fis "isHidden" l.selector]⟩
  | none => ⟨.err .objectNotFound, []⟩

/-- `Locator::is_enabled`. -/
def Locator.isEnabled (l : Locator) (timeout : Option Int) : OpRes Bool :=
  match l.frame with
  | some frame =>
    ⟨Outcome.ofE (frame.isEnabled l.selector timeout), [.fis "isEnabled" l.selector]⟩
  | none => ⟨.err .objectNotFound, []⟩

/-- `Locator::is_disabled`. -/
def Locator.isDisabled (l : Locator) (timeout : Option Int) : OpRes Bool :=
  match l.frame with
  | some frame =>
    ⟨Outcome.ofE (frame.isDisabled l.selector timeout), [.fis "isDisabled" l.selector]⟩
  | none => ⟨.err .objectNotFound, []⟩

/-- `Locator::is_checked`. -/
def Locator.isChecked (l : Locator) (timeout : Option Int) : OpRes Bool :=
  match l.frame with
  | some frame =>
    ⟨Outcome.ofE (frame.isChecked l.selector timeout), [.fis "isChecked" l.selector]⟩
  | none => ⟨.err .objectNotFound, []⟩

/-- `Locator::is_editable`. -/
def Locator.isEditable (l : Locator) (timeout : Option Int) : OpRes Bool :=
  match l.frame with
  | some frame =>
    ⟨Outcome.ofE (frame.isEditable l.selector timeout), [.fis "isEditable" l.selector]⟩
  | none => ⟨.err .objectNotFound, []⟩

/-- `Locator::first`: protocol-only; send, read the returned guid, and look
the object up in the registry. -/
def Locator.first (l : Locator) : OpRes WeakLocator :=
  match l.sendMessage "first" with
  | ⟨.ok v, t⟩ =>
    match onlyGuid v with
    | .ok g =>
      match l.channel with
      | some ch =>
        match ch.lookupGuid g with
        | .ok g2 => ⟨.ok (.registryRef g2), t⟩
        | .error e => ⟨.err e, t⟩
      | none => ⟨.panicked channelExpectMsg, t⟩
    | .error e => ⟨.err e, t⟩
  | ⟨.err e, t⟩ => ⟨.err e, t⟩
  | ⟨.panicked m, t⟩ => ⟨.panicked m, t⟩

/-- `Locator::last`: protocol-only, like `first`. -/
def Locator.last (l : Locator) : OpRes WeakLocator :=
  match l.sendMessage "last" with
  | ⟨.ok v, t⟩ =>
    match onlyGuid v with
    | .ok g =>
      match l.channel with
      | some ch =>
        match ch.lookupGuid g with
        | .ok g2 => ⟨.ok (.registryRef g2), t⟩
        | .error e => ⟨.err e, t⟩
      | none => ⟨.panicked channelExpectMsg, t⟩
    | .error e => ⟨.err e, t⟩
  | ⟨.err e, t⟩ => ⟨.err e, t⟩
  | ⟨.panicked m, t⟩ => ⟨.panicked m, t⟩

/-- `Locator::nth`: a server-side locator asks the peer for a new guid; a
client-synthesized locator synthesizes a selector — the marker form
`(<selector>)>>>nth-index-<index>` when the selector contains a comma, and
`<selector>:nth-of-type(<index+1>)` otherwise — and registers a new
client-side locator over the same frame reference (kept alive internally,
so the returned weak reference upgrades). -/
def Locator.nth (l : Locator) (index : Int) : OpRes WeakLocator :=
  match l.channel with
  | some _ =>
    match l.sendMessage "nth" with
    | ⟨.ok v, t⟩ =>
      match onlyGuid v with
      | .ok g =>
        match l.channel with
        | some ch =>
          match ch.lookupGuid g with
          | .ok g2 => ⟨.ok (.registryRef g2), t⟩
          | .error e => ⟨.err e, t⟩
        | none => ⟨.panicked channelExpectMsg, t⟩
      | .error e => ⟨.err e, t⟩
    | ⟨.err e, t⟩ => ⟨.err e, t⟩
    | ⟨.panicked m, t⟩ => ⟨.panicked m, t⟩
  | none =>
    if l.selector.data.contains ',' then
      let uniqueSelector :=
        "(" ++ l.selector ++ ")>>>nth-index-" ++ String.mk (intToDecimal index)
      ⟨.ok (.clientSide (Locator.newClientSide l.frame uniqueSelector)), []⟩
    else
      let nthSelector :=
        l.selector ++ ":nth-of-type(" ++ String.mk (intToDecimal (index + 1)) ++ ")"
      ⟨.ok (.clientSide (Locator.newClientSide l.frame nthSelector)), []⟩

/-- `Locator::filter`: protocol-only; the filter options are serialized
into the message (elided here with the other arguments). -/
def Locator.filter (l : Locator) (_options : FilterOptions) : OpRes WeakLocator :=
  match l.sendMessage "filter" with
  | ⟨.ok v, t⟩ =>
    match onlyGuid v with
    | .ok g =>
      match l.channel with
      | some ch =>
        match ch.lookupGuid g with
        | .ok g2 => ⟨.ok (.registryRef g2), t⟩
        | .error e => ⟨.err e, t⟩
      | none => ⟨.panicked channelExpectMsg, t⟩
    | .error e => ⟨.err e, t⟩
  | ⟨.err e, t⟩ => ⟨.err e, t⟩
  | ⟨.panicked m, t⟩ => ⟨.panicked m, t⟩

/-- The marker selector `nth` synthesizes for a compound selector
(spec `synthesize_indexed`). -/
def markerSelector (base : String) (i : Nat) : String :=
  "(" ++ base ++ ")>>>nth-index-" ++ natRepr i

/-- The value a delegate call writes into the targeted text field, if any
(both the selector-level and the element-level fill primitives write). -/
def fillWriteValue : FCall → Option String
  | .ffill _ v => some v
  | .efill v => some v
  | _ => none

/-- Interpret one call against an abstract text-field state. -/
def applyFieldCall (s : String) (c : FCall) : String :=
  match fillWriteValue c with
  | some v => v
  | none => s

/-- Interpret a call trace against an abstract text-field state: the field
holds the last value written. -/
def runFieldEffect (t : List FCall) (s : String) : String := t.foldl applyFieldCall s

/-- Every write performed by the trace writes the empty string. -/
def onlyEmptyWrites (t : List FCall) : Bool :=
  t.all (fun c => (fillWriteValue c).getD "" == "")

/-- An element handle answering every primitive trivially, for concrete
witnesses. -/
def trivElement : ElementHandle :=
  { fillE := fun _ => .ok (), getAttributeE := fun _ => .ok none,
    textContentE := .ok none, setInputFilesE := fun _ => .ok (),
    pressE := fun _ => .ok (), typeE := fun _ => .ok () }

/-- A frame delegate answering every call trivially, for concrete
witnesses. -/
def trivFrameEnv : FrameEnv :=
  { querySelectorAll := fun _ => .ok [], querySelector := fun _ => .ok none,
    click := fun _ => .ok (), dblclick := fun _ => .ok (), fill := fun _ => .ok (),
    hover := fun _ => .ok (), check := fun _ => .ok (), uncheck := fun _ => .ok (),
    setInputFiles := fun _ => .ok (), focus := fun _ _ => .ok (),
    selectOption := fun _ => .ok [], textContent := fun _ _ => .ok none,
    innerText := fun _ _ => .ok "", innerHtml := fun _ _ => .ok "",
    getAttribute := fun _ _ _ => .ok none, evaluate := fun _ => .ok .null,
    isVisible := fun _ _ => .ok false, isHidden := fun _ _ => .ok false,
    isEnabled := fun _ _ => .ok false, isDisabled := fun _ _ => .ok false,
    isChecked := fun _ _ => .ok false, isEditable := fun _ _ => .ok false }

/-- An element answering every attribute query with a fixed value. -/
def attrElement (v : String) : ElementHandle :=
  { trivElement with getAttributeE := fun _ => .ok (some v) }

/-- An element with a fixed text content. -/
def textElement (v : String) : ElementHandle :=
  { trivElement with textContentE := .ok (some v) }

/-- Base selector of the C1 counterexample: compound (it contains a comma)
but itself containing the marker infix. -/
def c1CexBase : String := "a)>>>nth-index-0, b"

/-- The selector `nth(1)` synthesizes over `c1CexBase`. -/
def c1CexSelector : String := "(a)>>>nth-index-0, b)>>>nth-index-1"

/-- Frame for the C1 counterexample: the base query has a second element
whose attribute is "right", while querying the synthesized selector
verbatim answers "wrong". -/
def c1CexEnv : FrameEnv :=
  { trivFrameEnv with
    querySelectorAll := fun s =>
      if s == c1CexBase then .ok [some trivElement, some (attrElement "right")] else .ok [],
    getAttribute := fun s _ _ =>
      if s == c1CexSelector then .ok (some "wrong") else .ok none }

/-- Frame for the C1 witness: two matches for the compound selector. -/
def c1WitEnv : FrameEnv :=
  { trivFrameEnv with
    querySelectorAll := fun s =>
      if s == "input, select" then .ok [some trivElement, some (attrElement "email")]
      else .ok [] }

/-- Frame for the C4 witness: exactly two inputs, both carrying values. -/
def c4Env : FrameEnv :=
  { trivFrameEnv with
    querySelectorAll := fun s =>
      if s == "input" then .ok [some (attrElement "first"), some (attrElement "second")]
      else .ok [] }

/-- Frame whose script evaluator succeeds with a string. -/
def c5Env : FrameEnv :=
  { trivFrameEnv with evaluate := fun _ => .ok (.str "hello") }

/-- Frame whose script evaluator fails and whose native text query
answers. -/
def c9Env : FrameEnv :=
  { trivFrameEnv with
    evaluate := fun _ => .error (.other "eval failed"),
    textContent := fun _ _ => .ok (some "native") }

/-- Frame for the C10 counterexample: the truncated base selector `"(a"`
has two matches, and querying the full selector verbatim would answer
"asis". -/
def c10CexEnv : FrameEnv :=
  { trivFrameEnv with
    querySelectorAll := fun s =>
      if s == "(a" then .ok [some trivElement, some (textElement "branch")] else .ok [],
    textContent := fun _ _ => .ok (some "asis") }

/-- Recognizer for the native text-content delegate call (used to count
fallback retries). -/
def isNativeTextCall : FCall → Bool
  | .ftextContent _ _ => true
  | _ => false

/-! ## Properties of the selector scanners -/

/-- If `findSub` finds nothing, the pattern is a prefix of no suffix. -/
theorem findSub_none_no_occurrence (s pat : List Char) :
    findSub s pat = none → ∀ m : Nat, pat.isPrefixOf (s.drop m) = false := by
  induction s with
  | nil =>
    intro h m
    simp only [List.drop_nil]
    unfold findSub at h
    by_cases hp : pat.isPrefixOf ([] : List Char)
    · rw [if_pos hp] at h; exact absurd h (by simp)
    · exact Bool.eq_false_iff.mpr hp
  | cons c t ih =>
    intro h m
    unfold findSub at h
    by_cases hp : pat.isPrefixOf (c :: t)
    · rw [if_pos hp] at h; exact absurd h (by simp)
    · rw [if_neg hp] at h
      have ht : findSub t pat = none := by
        cases hft : findSub t pat with
        | none => rfl
        | some k => rw [hft] at h; exact absurd h (by simp)
      cases m with
      | zero =>
        simp only [List.drop_zero]
        exact Bool.eq_false_iff.mpr hp
      | succ j =>
        simp only [List.drop_succ_cons]
        exact ih ht j

/-- `findSub` returns the first position at which the pattern matches. -/
theorem findSub_first (s pat : List Char) (n : Nat)
    (h1 : pat.isPrefixOf (s.drop n) = true)
    (h2 : ∀ m : Nat, m < n → pat.isPrefixOf (s.drop m) = false) :
    findSub s pat = some n := by
  induction s generalizing n with
  | nil =>
    cases n with
    | zero =>
      simp only [List.drop_zero] at h1
      unfold findSub
      rw [if_pos h1]
    | succ j =>
      exfalso
      have hz := h2 0 (by omega)
      simp only [List.drop_nil] at h1 hz
      rw [h1] at hz
      exact absurd hz (by simp)
  | cons c t ih =>
    cases n with
    | zero =>
      simp only [List.drop_zero] at h1
      unfold findSub
      rw [if_pos h1]
    | succ j =>
      have hp0 : pat.isPrefixOf (c :: t) = false := by
        have := h2 0 (Nat.succ_pos j)
        simpa only [List.drop_zero] using this
      unfold findSub
      rw [if_neg (by simp [hp0])]
      have h1' : pat.isPrefixOf (t.drop j) = true := by
        simpa only [List.drop_succ_cons] using h1
      have h2' : ∀ m : Nat, m < j → pat.isPrefixOf (t.drop m) = false := by
        intro m hm
        simpa only [List.drop_succ_cons] using h2 (m + 1) (by omega)
      rw [ih j h1' h2']
      rfl

/-- Length of the marker infix. -/
theorem nthIndexPat_length : nthIndexPat.length = 14 := by decide

/-- The marker infix starts with a closing parenthesis and contains no
second one, so it cannot overlap itself across the seam of the synthesized
selector. -/
theorem nthIndexPat_no_inner_close :
    ∀ d : Fin 14, 1 ≤ d.val → ¬ (nthIndexPat[d.val]? = some ')') := by decide

/-- If the base selector does not contain the marker infix, the marker
cannot match starting inside the base region of the synthesized selector. -/
theorem no_marker_prefix_inside (base rest : List Char)
    (hb : findSub base nthIndexPat = none) (j : Nat) (hj : j < base.length) :
    nthIndexPat.isPrefixOf (base.drop j ++ (nthIndexPat ++ rest)) = false := by
  cases hx : nthIndexPat.isPrefixOf (base.drop j ++ (nthIndexPat ++ rest)) with
  | false => rfl
  | true =>
    exfalso
    rw [List.isPrefixOf_iff_prefix] at hx
    obtain ⟨tl, htl⟩ := hx
    by_cases h14 : 14 ≤ (base.drop j).length
    · -- the whole marker would lie inside the base selector
      have htake : (base.drop j ++ (nthIndexPat ++ rest)).take 14 = (base.drop j).take 14 :=
        List.take_append_of_le_length h14
      have htake2 : (nthIndexPat ++ tl).take 14 = nthIndexPat := by
        conv_lhs => rw [show (14 : Nat) = nthIndexPat.length from nthIndexPat_length.symm]
        exact List.take_left _ _
      have hpref : (base.drop j).take 14 = nthIndexPat := by
        rw [← htake, ← htl, htake2]
      have : nthIndexPat.isPrefixOf (base.drop j) = true := by
        rw [List.isPrefixOf_iff_prefix]
        exact ⟨(base.drop j).drop 14, by rw [← hpref]; exact List.take_append_drop 14 _⟩
      rw [findSub_none_no_occurrence base nthIndexPat hb j] at this
      exact absurd this (by simp)
    · -- the marker would straddle the seam: its character at offset d
      -- (where the appended marker starts) would have to be a second
      -- closing parenthesis
      set d := (base.drop j).length with hd
      have hd1 : 1 ≤ d := by
        rw [hd, List.length_drop]
        omega
      have hd14 : d < 14 := by omega
      have hlhs : (base.drop j ++ (nthIndexPat ++ rest))[d]? = some ')' := by
        rw [List.getElem?_append_right (by omega)]
        have : d - (base.drop j).length = 0 := by omega
        rw [this]
        rw [List.getElem?_append_left (by rw [nthIndexPat_length]; omega)]
        decide
      have hrhs : (nthIndexPat ++ tl)[d]? = nthIndexPat[d]? :=
        List.getElem?_append_left (by rw [nthIndexPat_length]; omega)
      rw [← htl, hrhs] at hlhs
      exact nthIndexPat_no_inner_close ⟨d, hd14⟩ hd1 hlhs

/-- In the synthesized selector `'(' :: base ++ marker ++ rest`, the first
occurrence of the marker infix is exactly at position `base.length + 1`,
provided the base selector does not itself contain the marker. -/
theorem findSub_marker_synth (base rest : List Char)
    (hb : findSub base nthIndexPat = none) :
    findSub (('(' :: base) ++ (nthIndexPat ++ rest)) nthIndexPat = some (base.length + 1) := by
  apply findSub_first
  · have hdrop : (('(' :: base) ++ (nthIndexPat ++ rest)).drop (base.length + 1)
        = nthIndexPat ++ rest := by
      have hlen : ('(' :: base).length = base.length + 1 := by simp
      rw [← hlen, List.drop_left]
    rw [hdrop, List.isPrefixOf_iff_prefix]
    exact List.prefix_append _ _
  · intro m hm
    have hpat : nthIndexPat = ')' :: ">>>nth-index-".data := by decide
    cases m with
    | zero =>
      simp only [List.drop_zero, List.cons_append]
      rw [hpat]
      simp [List.isPrefixOf]
    | succ j =>
      have hj : j < base.length := by omega
      have hdrop : (('(' :: base) ++ (nthIndexPat ++ rest)).drop (j + 1)
          = base.drop j ++ (nthIndexPat ++ rest) := by
        rw [List.cons_append, List.drop_succ_cons]
        rw [List.drop_append_of_le_length (by omega)]
      rw [hdrop]
      exact no_marker_prefix_inside base rest hb j hj

/-- Splitting a decimal accumulation at an append. -/
theorem parseDigits_append (l1 l2 : List Char) :
    parseDigits (l1 ++ l2) = l2.foldl pushDigit (parseDigits l1) := by
  unfold parseDigits
  exact List.foldl_append _ _ _ _

/-- A single decimal digit parses to its value. -/
theorem digitVal_digitChar (d : Nat) (hd : d < 10) :
    digitVal (Char.ofNat (48 + d)) = some d := by
  interval_cases d <;> decide

/-- Decimal printing (with sufficient fuel) followed by digit accumulation
is the identity. -/
theorem parseDigits_natToDecimalAux (fuel : Nat) :
    ∀ n : Nat, n < fuel → parseDigits (natToDecimalAux fuel n) = some n := by
  induction fuel with
  | zero => intro n hn; omega
  | succ fuel ih =>
    intro n hn
    unfold natToDecimalAux
    split
    · next h =>
      show parseDigits [Char.ofNat (48 + n)] = some n
      unfold parseDigits
      simp [pushDigit, digitVal_digitChar n h]
    · next h =>
      rw [parseDigits_append]
      rw [ih (n / 10) (by omega)]
      show pushDigit (some (n / 10)) (Char.ofNat (48 + n % 10)) = some n
      unfold pushDigit
      rw [digitVal_digitChar (n % 10) (Nat.mod_lt _ (by omega))]
      show some (n / 10 * 10 + n % 10) = some n
      have hsplit : n / 10 * 10 + n % 10 = n := by omega
      rw [hsplit]

/-- Decimal printing followed by digit accumulation is the identity. -/
theorem parseDigits_natToDecimal (n : Nat) :
    parseDigits (natToDecimal n) = some n :=
  parseDigits_natToDecimalAux (n + 1) n (by omega)

/-- Decimal printing (with sufficient fuel) is non-empty and never starts
with a sign. -/
theorem natToDecimalAux_head (fuel : Nat) :
    ∀ n : Nat, n < fuel →
      ∃ c t, natToDecimalAux fuel n = c :: t ∧ (c == '+') = false := by
  induction fuel with
  | zero => intro n hn; omega
  | succ fuel ih =>
    intro n hn
    unfold natToDecimalAux
    split
    · next h =>
      refine ⟨Char.ofNat (48 + n), [], rfl, ?_⟩
      interval_cases n <;> decide
    · next h =>
      obtain ⟨c, t, heq, hne⟩ := ih (n / 10) (by omega)
      exact ⟨c, t ++ [Char.ofNat (48 + n % 10)], by rw [heq]; rfl, hne⟩

/-- Decimal printing is non-empty and never starts with a sign. -/
theorem natToDecimal_head (n : Nat) :
    ∃ c t, natToDecimal n = c :: t ∧ (c == '+') = false :=
  natToDecimalAux_head (n + 1) n (by omega)

/-- Printing a usize-range value and parsing it back round-trips. -/
theorem parseUsize_natToDecimal (n : Nat) (h : n < 2 ^ 64) :
    parseUsize (natToDecimal n) = some n := by
  obtain ⟨c, t, heq, hne⟩ := natToDecimal_head n
  have hpd : parseDigits (c :: t) = some n := heq ▸ parseDigits_natToDecimal n
  unfold parseUsize
  rw [heq]
  simp only [hne, Bool.false_eq_true, if_false]
  show (match parseDigits (c :: t) with
        | some m => if m < 2 ^ 64 then some m else none
        | none => none) = some n
  rw [hpd]
  exact if_pos h

/-- Rust prints a non-negative `i32` like the underlying natural number. -/
theorem intToDecimal_ofNat (i : Nat) : intToDecimal (Int.ofNat i) = natToDecimal i := by
  unfold intToDecimal
  rw [if_neg (by exact not_lt.mpr (Int.ofNat_nonneg i))]
  rfl

/-- The marker scan recovers exactly the base selector and index that the
synthesis embedded, whenever the base selector does not itself contain the
marker infix and the index is in usize range. -/
theorem parseNthMarker_synth (base : String) (i : Nat)
    (hb : findSub base.data nthIndexPat = none) (hi : i < 2 ^ 64) :
    parseNthMarker (markerSelector base i) = some (base, i) := by
  have hdata : (markerSelector base i).data
      = ('(' :: base.data) ++ (nthIndexPat ++ natToDecimal i) := by
    show ((["(".data.head!] ++ base.data) ++ nthIndexPat) ++ natToDecimal i = _
    simp [List.append_assoc]
  unfold parseNthMarker
  rw [hdata]
  have hguard : ("(".data).isPrefixOf (('(' :: base.data) ++ (nthIndexPat ++ natToDecimal i))
      = true := by
    rw [List.isPrefixOf_iff_prefix]
    exact ⟨base.data ++ (nthIndexPat ++ natToDecimal i), by simp⟩
  rw [if_pos hguard, findSub_marker_synth base.data (natToDecimal i) hb]
  show (match parseUsize ((('(' :: base.data) ++ (nthIndexPat ++ natToDecimal i)).drop
          (base.data.length + 1 + 14)) with
        | some index =>
          some (String.mk (((('(' :: base.data) ++
            (nthIndexPat ++ natToDecimal i)).take (base.data.length + 1)).drop 1), index)
        | none => none) = some (base, i)
  have hdrop : (('(' :: base.data) ++ (nthIndexPat ++ natToDecimal i)).drop
      (base.data.length + 1 + 14) = natToDecimal i := by
    rw [List.cons_append]
    have h15 : base.data.length + 1 + 14 = (base.data.length + 14) + 1 := by omega
    rw [h15, List.drop_succ_cons]
    rw [← List.drop_drop]
    rw [List.drop_left]
    conv_lhs => rw [show (14 : Nat) = nthIndexPat.length from nthIndexPat_length.symm]
    rw [List.drop_left]
  rw [hdrop, parseUsize_natToDecimal i hi]
  have htake : (((('(' :: base.data) ++ (nthIndexPat ++ natToDecimal i)).take
      (base.data.length + 1)).drop 1) = base.data := by
    rw [List.cons_append, List.take_succ_cons, List.take_left]
    rfl
  show some (String.mk (((('(' :: base.data) ++
      (nthIndexPat ++ natToDecimal i)).take (base.data.length + 1)).drop 1), i)
    = some (base, i)
  rw [htake]

/-- A trace whose writes are all empty drives any field state to itself or
to the empty string. -/
theorem runFieldEffect_value (t : List FCall) (h : onlyEmptyWrites t = true) :
    ∀ s, runFieldEffect t s = s ∨ runFieldEffect t s = "" := by
  induction t with
  | nil => intro s; left; rfl
  | cons c t ih =>
    intro s
    rw [onlyEmptyWrites, List.all_cons, Bool.and_eq_true] at h
    have hstep : applyFieldCall s c = s ∨ applyFieldCall s c = "" := by
      unfold applyFieldCall
      cases hv : fillWriteValue c with
      | none => left; rfl
      | some v =>
        right
        have := h.1
        rw [hv] at this
        simpa using this
    have ht : onlyEmptyWrites t = true := h.2
    show runFieldEffect t (applyFieldCall s c) = s ∨ runFieldEffect t (applyFieldCall s c) = ""
    rcases hstep with hs | hs
    · rw [hs]; exact ih ht s
    · rw [hs]
      rcases ih ht "" with hv2 | hv2
      · right; exact hv2
      · right; exact hv2

/-- Running a trace whose writes are all empty twice is the same as running
it once. -/
theorem runFieldEffect_idem (t : List FCall) (h : onlyEmptyWrites t = true) (s : String) :
    runFieldEffect t (runFieldEffect t s) = runFieldEffect t s := by
  rcases runFieldEffect_value t h s with hv | hv
  · rw [hv]; exact hv
  · rw [hv]
    rcases runFieldEffect_value t h "" with hv2 | hv2
    · exact hv2
    · exact hv2

/-- Every branch of `fill("")` writes nothing but the empty string. -/
theorem fill_empty_onlyEmptyWrites (l : Locator) (args : FillArgs) :
    onlyEmptyWrites ((l.fill "" args).trace) = true := by
  unfold Locator.fill
  repeat' split
  all_goals rfl

/-! ## Claims -/

/-- C3: on any client-synthesized Locator (its `channel` is `None`),
`blur`, `first`, `last` and `filter` go through the `RemoteObject` channel
accessor and panic with its `expect` message — even while the owning frame
is alive — instead of returning an error. -/
theorem clientSide_blur_first_last_filter_panic (env : FrameEnv) (sel : String)
    (t : Option Int) (opts : FilterOptions) :
    ((Locator.newClientSide (some env) sel).blur t).res = .panicked channelExpectMsg ∧
    ((Locator.newClientSide (some env) sel).first).res = .panicked channelExpectMsg ∧
    ((Locator.newClientSide (some env) sel).last).res = .panicked channelExpectMsg ∧
    ((Locator.newClientSide (some env) sel).filter opts).res = .panicked channelExpectMsg :=
  ⟨rfl, rfl, rfl, rfl⟩

/-- C7: for a client-synthesized Locator over a comma-free selector,
`nth(index)` produces a new client-synthesized Locator over the same frame
reference whose selector is the base selector with
`:nth-of-type(index+1)` appended (0-based index to 1-based CSS position). -/
theorem nth_simple_appends_nth_of_type (frame : Option FrameEnv) (sel : String) (i : Int)
    (h : sel.data.contains ',' = false) :
    (Locator.newClientSide frame sel).nth i =
      ⟨.ok (.clientSide (Locator.newClientSide frame
        (sel ++ ":nth-of-type(" ++ String.mk (intToDecimal (i + 1)) ++ ")"))), []⟩ := by
  unfold Locator.nth
  simp only [Locator.newClientSide, h, Bool.false_eq_true, if_false]

/-- C7 witness: `nth(1)` over `"label"` yields `"label:nth-of-type(2)"`. -/
theorem nth_simple_appends_nth_of_type_w :
    (Locator.newClientSide (some trivFrameEnv) "label").nth 1 =
      ⟨.ok (.clientSide (Locator.newClientSide (some trivFrameEnv)
        "label:nth-of-type(2)")), []⟩ := by
  have h := nth_simple_appends_nth_of_type (some trivFrameEnv) "label" 1 (by decide)
  exact h

/-- C6 counterexample: `"input[name=a,b]"` contains a comma only inside
brackets, so per the claim it must not be treated as compound; yet `nth(0)`
synthesizes the compound marker form instead of appending
`:nth-of-type(1)`. -/
theorem comma_in_brackets_triggers_marker :
    ((Locator.newClientSide none "input[name=a,b]").nth 0).res =
      .ok (.clientSide (Locator.newClientSide none "(input[name=a,b])>>>nth-index-0")) ∧
    "(input[name=a,b])>>>nth-index-0" ≠ "input[name=a,b]:nth-of-type(1)" :=
  ⟨rfl, by decide⟩

/-- C6 (amended): a client-synthesized `nth` takes the compound marker path
exactly when the selector contains a comma anywhere — including inside
brackets or parentheses — and the `:nth-of-type` path otherwise. -/
theorem nth_compound_iff_any_comma (frame : Option FrameEnv) (sel : String) (i : Int) :
    (sel.data.contains ',' = true →
      ((Locator.newClientSide frame sel).nth i).res =
        .ok (.clientSide (Locator.newClientSide frame
          ("(" ++ sel ++ ")>>>nth-index-" ++ String.mk (intToDecimal i))))) ∧
    (sel.data.contains ',' = false →
      ((Locator.newClientSide frame sel).nth i).res =
        .ok (.clientSide (Locator.newClientSide frame
          (sel ++ ":nth-of-type(" ++ String.mk (intToDecimal (i + 1)) ++ ")")))) := by
  constructor
  · intro h
    unfold Locator.nth
    simp only [Locator.newClientSide, h, if_true]
  · intro h
    unfold Locator.nth
    simp only [Locator.newClientSide, h, Bool.false_eq_true, if_false]

/-- C6 witness: both branches at concrete selectors. -/
theorem nth_compound_iff_any_comma_w :
    ((Locator.newClientSide none "a, b").nth 1).res =
      .ok (.clientSide (Locator.newClientSide none
        ("(" ++ "a, b" ++ ")>>>nth-index-" ++ String.mk (intToDecimal 1)))) ∧
    ((Locator.newClientSide none "label").nth 1).res =
      .ok (.clientSide (Locator.newClientSide none
        ("label" ++ ":nth-of-type(" ++ String.mk (intToDecimal (1 + 1)) ++ ")"))) :=
  ⟨(nth_compound_iff_any_comma none "a, b" 1).1 (by decide),
   (nth_compound_iff_any_comma none "label" 1).2 (by decide)⟩

/-- C8: on a client-synthesized Locator, `clear(args)` is the very
operation `fill("", args)` with the same force, no-wait-after and timeout
options — same outcome and same delegate calls — and replaying its
delegate calls twice over a text field leaves the same value as replaying
them once. -/
theorem clear_is_fill_empty (l : Locator) (args : ClearArgs) (h : l.channel = none)
    (s : String) :
    l.clear args = l.fill ""
      { force := args.force, noWaitAfter := args.noWaitAfter, timeout := args.timeout } ∧
    runFieldEffect ((l.clear args).trace ++ (l.clear args).trace) s =
      runFieldEffect ((l.clear args).trace) s := by
  have hc : l.clear args = l.fill ""
      { force := args.force, noWaitAfter := args.noWaitAfter, timeout := args.timeout } := by
    unfold Locator.clear
    rw [h]
  refine ⟨hc, ?_⟩
  have happ : runFieldEffect ((l.clear args).trace ++ (l.clear args).trace) s
      = runFieldEffect ((l.clear args).trace) (runFieldEffect ((l.clear args).trace) s) :=
    List.foldl_append _ _ _ _
  rw [happ, hc]
  exact runFieldEffect_idem _ (fill_empty_onlyEmptyWrites l _) s

/-- C8 witness: a concrete client-synthesized clear. -/
theorem clear_is_fill_empty_w :
    (Locator.newClientSide (some trivFrameEnv) "input").clear {} =
      (Locator.newClientSide (some trivFrameEnv) "input").fill "" {} ∧
    runFieldEffect
        (((Locator.newClientSide (some trivFrameEnv) "input").clear {}).trace ++
         ((Locator.newClientSide (some trivFrameEnv) "input").clear {}).trace) "abc" =
      runFieldEffect
        (((Locator.newClientSide (some trivFrameEnv) "input").clear {}).trace) "abc" :=
  clear_is_fill_empty (Locator.newClientSide (some trivFrameEnv) "input") {} rfl "abc"

/-- C2 counterexample: with the owning frame gone, `blur` on a
client-synthesized Locator panics in the channel accessor instead of
returning `ObjectNotFound`, and `nth` succeeds with a new locator. -/
theorem dead_frame_blur_panics_nth_succeeds :
    ((Locator.newClientSide none "input").blur none).res = .panicked channelExpectMsg ∧
    ((Locator.newClientSide none "input").nth 0).res =
      .ok (.clientSide (Locator.newClientSide none "input:nth-of-type(1)")) :=
  ⟨rfl, rfl⟩

/-- C2 (amended): when the frame reference of a client-synthesized Locator
fails to upgrade, `click`, `dblclick`, `fill`, `hover`, `check`, `uncheck`,
`press`, `type`, `set_input_files`, `focus`, `clear`, `select_option`,
`text_content`, `inner_text`, `inner_html`, `get_attribute`, `count` and
the `is_*` predicates return `ObjectNotFound`; but `blur`, `input_value`,
`first`, `last` and `filter` go to the protocol channel and panic on a
client-synthesized locator, and `nth` succeeds, returning a new locator
over the dead frame. -/
theorem dead_frame_operations (sel : String) (a : ClickArgs) (fa : FillArgs)
    (v : String) (ha : HoverArgs) (ca : CheckArgs) (pa : PressArgs) (key : String)
    (ta : TypeArgs) (text : String) (sfa : SetInputFilesArgs) (t : Option Int)
    (cla : ClearArgs) (soa : SelectOptionArgs) (name : String) (opts : FilterOptions)
    (i : Int) :
    ((Locator.newClientSide none sel).click a).res = .err .objectNotFound ∧
    ((Locator.newClientSide none sel).dblclick a).res = .err .objectNotFound ∧
    ((Locator.newClientSide none sel).fill v fa).res = .err .objectNotFound ∧
    ((Locator.newClientSide none sel).hover ha).res = .err .objectNotFound ∧
    ((Locator.newClientSide none sel).check ca).res = .err .objectNotFound ∧
    ((Locator.newClientSide none sel).uncheck ca).res = .err .objectNotFound ∧
    ((Locator.newClientSide none sel).press key pa).res = .err .objectNotFound ∧
    ((Locator.newClientSide none sel).typeText text ta).res = .err .objectNotFound ∧
    ((Locator.newClientSide none sel).setInputFiles sfa).res = .err .objectNotFound ∧
    ((Locator.newClientSide none sel).focus t).res = .err .objectNotFound ∧
    ((Locator.newClientSide none sel).clear cla).res = .err .objectNotFound ∧
    ((Locator.newClientSide none sel).selectOption soa).res = .err .objectNotFound ∧
    ((Locator.newClientSide none sel).textContent t).res = .err .objectNotFound ∧
    ((Locator.newClientSide none sel).innerText t).res = .err .objectNotFound ∧
    ((Locator.newClientSide none sel).innerHtml t).res = .err .objectNotFound ∧
    ((Locator.newClientSide none sel).getAttribute name t).res = .err .objectNotFound ∧
    ((Locator.newClientSide none sel).count).res = .err .objectNotFound ∧
    ((Locator.newClientSide none sel).isVisible t).res = .err .objectNotFound ∧
    ((Locator.newClientSide none sel).isHidden t).res = .err .objectNotFound ∧
    ((Locator.newClientSide none sel).isEnabled t).res = .err .objectNotFound ∧
    ((Locator.newClientSide none sel).isDisabled t).res = .err .objectNotFound ∧
    ((Locator.newClientSide none sel).isChecked t).res = .err .objectNotFound ∧
    ((Locator.newClientSide none sel).isEditable t).res = .err .objectNotFound ∧
    ((Locator.newClientSide none sel).blur t).res = .panicked channelExpectMsg ∧
    ((Locator.newClientSide none sel).inputValue t).res = .panicked channelExpectMsg ∧
    ((Locator.newClientSide none sel).first).res = .panicked channelExpectMsg ∧
    ((Locator.newClientSide none sel).last).res = .panicked channelExpectMsg ∧
    ((Locator.newClientSide none sel).filter opts).res = .panicked channelExpectMsg ∧
    (∃ l2, ((Locator.newClientSide none sel).nth i).res = .ok (.clientSide l2)) := by
  refine ⟨rfl, rfl, rfl, rfl, rfl, rfl, rfl, rfl, rfl, rfl, rfl, rfl, rfl, rfl, rfl, rfl,
    rfl, rfl, rfl, rfl, rfl, rfl, rfl, rfl, rfl, rfl, rfl, rfl, ?_⟩
  unfold Locator.nth
  dsimp only [Locator.newClientSide]
  cases h : sel.data.contains ',' with
  | false =>
    simp only [h, Bool.false_eq_true, if_false]
    exact ⟨_, rfl⟩
  | true =>
    simp only [h, if_true]
    exact ⟨_, rfl⟩

/-- C4: `get_attribute("value")` on the marker Locator
`"(input)>>>nth-index-2"` when the base query returns only two elements is
the clean not-found outcome `Ok(None)` after the single base query — no
panic, no abort with another error category, and not the first element's
value; `fill` on the same Locator is the not-found error. -/
theorem marker_index_out_of_range_not_found (env : FrameEnv)
    (w0 w1 : Option ElementHandle) (t : Option Int) (fa : FillArgs) (v : String)
    (h : env.querySelectorAll "input" = .ok [w0, w1]) :
    (Locator.newClientSide (some env) "(input)>>>nth-index-2").getAttribute "value" t =
      ⟨.ok none, [.qsa "input"]⟩ ∧
    ((Locator.newClientSide (some env) "(input)>>>nth-index-2").fill v fa).res =
      .err .objectNotFound := by
  have hp : parseNthMarker "(input)>>>nth-index-2" = some ("input", 2) := by decide
  constructor
  · unfold Locator.getAttribute
    dsimp only [Locator.newClientSide]
    rw [hp]
    dsimp only []
    rw [h]
    rfl
  · unfold Locator.fill
    dsimp only [Locator.newClientSide]
    rw [hp]
    dsimp only []
    rw [h]
    rfl

/-- C4 witness: a concrete frame with exactly two inputs, both carrying
values. -/
theorem marker_index_out_of_range_not_found_w :
    (Locator.newClientSide (some c4Env) "(input)>>>nth-index-2").getAttribute "value" none =
      ⟨.ok none, [.qsa "input"]⟩ ∧
    ((Locator.newClientSide (some c4Env) "(input)>>>nth-index-2").fill "x" {}).res =
      .err .objectNotFound :=
  marker_index_out_of_range_not_found c4Env (some (attrElement "first"))
    (some (attrElement "second")) none {} "x" rfl

/-- C5: an `xpath=` selector containing a union operator or one of the
ancestor / descendant / following / preceding axis keywords is classified
complex (Unsafe), and `text_content` evaluates the rewritten in-page script
first; the native text query appears in the trace only after — and only
if — the script evaluation fails. -/
theorem complex_xpath_script_first (env : FrameEnv) (sel : String) (t : Option Int)
    (h1 : strStartsWith sel "xpath=" = true)
    (h2 : containsSub sel.data "|".data = true ∨
          containsSub sel.data "ancestor::".data = true ∨
          containsSub sel.data "descendant::".data = true ∨
          containsSub sel.data "following::".data = true ∨
          containsSub sel.data "preceding::".data = true) :
    isComplexXpathSel sel = true ∧
    ((Locator.newClientSide (some env) sel).textContent t).trace =
      (match env.evaluate (complexXpathJs (String.mk (sel.data.drop 6))) with
       | .ok _ => [.feval (complexXpathJs (String.mk (sel.data.drop 6)))]
       | .error _ => [.feval (complexXpathJs (String.mk (sel.data.drop 6))),
                      .ftextContent sel none]) := by
  have hcx : isComplexXpathSel sel = true := by
    unfold isComplexXpathSel
    rcases h2 with h | h | h | h | h <;> simp [h]
  refine ⟨hcx, ?_⟩
  unfold Locator.textContent
  dsimp only [Locator.newClientSide]
  rw [h1, hcx]
  simp only [Bool.and_self, if_true]
  unfold Locator.handleComplexXpathTextContent
  dsimp only
  cases hev : env.evaluate (complexXpathJs (String.mk (sel.data.drop 6))) with
  | ok r => cases r <;> rfl
  | error e => rfl

/-- C5 witness: a concrete union-operator XPath with a succeeding
evaluator — only the script evaluation appears in the trace. -/
theorem complex_xpath_script_first_w :
    isComplexXpathSel "xpath=//a|//b" = true ∧
    ((Locator.newClientSide (some c5Env) "xpath=//a|//b").textContent none).trace =
      (match c5Env.evaluate (complexXpathJs (String.mk ("xpath=//a|//b".data.drop 6))) with
       | .ok _ => [.feval (complexXpathJs (String.mk ("xpath=//a|//b".data.drop 6)))]
       | .error _ => [.feval (complexXpathJs (String.mk ("xpath=//a|//b".data.drop 6))),
                      .ftextContent "xpath=//a|//b" none]) :=
  complex_xpath_script_first c5Env "xpath=//a|//b" none (by decide) (Or.inl (by decide))

/-- C9: when script evaluation for a complex XPath fails, the failure is
swallowed and the native text query runs exactly once — after the script
attempt — with its result returned as-is. -/
theorem xpath_fallback_native_once (env : FrameEnv) (sel : String) (t : Option Int)
    (e : Err)
    (hev : env.evaluate (complexXpathJs (String.mk (sel.data.drop 6))) = .error e) :
    (Locator.newClientSide (some env) sel).handleComplexXpathTextContent env t =
      ⟨Outcome.ofE (env.textContent sel none),
       [.feval (complexXpathJs (String.mk (sel.data.drop 6))),
        .ftextContent sel none]⟩ ∧
    (((Locator.newClientSide (some env) sel).handleComplexXpathTextContent env
        t).trace.filter isNativeTextCall).length = 1 := by
  have hmain : (Locator.newClientSide (some env) sel).handleComplexXpathTextContent env t =
      ⟨Outcome.ofE (env.textContent sel none),
       [.feval (complexXpathJs (String.mk (sel.data.drop 6))),
        .ftextContent sel none]⟩ := by
    unfold Locator.handleComplexXpathTextContent
    dsimp only [Locator.newClientSide]
    rw [hev]
  refine ⟨hmain, ?_⟩
  rw [hmain]
  rfl

/-- C9 witness: a concrete failing evaluator; the fallback returns the
native answer as-is, with exactly one native call. -/
theorem xpath_fallback_native_once_w :
    (Locator.newClientSide (some c9Env) "xpath=//a|//b").handleComplexXpathTextContent
        c9Env none =
      ⟨Outcome.ofE (c9Env.textContent "xpath=//a|//b" none),
       [.feval (complexXpathJs (String.mk ("xpath=//a|//b".data.drop 6))),
        .ftextContent "xpath=//a|//b" none]⟩ ∧
    (((Locator.newClientSide (some c9Env) "xpath=//a|//b").handleComplexXpathTextContent
        c9Env none).trace.filter isNativeTextCall).length = 1 :=
  xpath_fallback_native_once c9Env "xpath=//a|//b" none (.other "eval failed") rfl

/-- C10 counterexample: `"(a:nth-of-type(2))>>>nth-index-x"` carries a
malformed nth-index marker (index text `"x"`), yet `text_content` does not
issue the selector as-is: it falls into the `:nth-of-type(` special case,
querying the truncated base `"(a"` and indexing into its matches, while
querying the verbatim selector would have answered differently. -/
theorem malformed_marker_not_issued_as_is :
    strStartsWith "(a:nth-of-type(2))>>>nth-index-x" "(" = true ∧
    containsSub "(a:nth-of-type(2))>>>nth-index-x".data nthIndexPat = true ∧
    parseNthMarker "(a:nth-of-type(2))>>>nth-index-x" = none ∧
    (Locator.newClientSide (some c10CexEnv)
        "(a:nth-of-type(2))>>>nth-index-x").textContent none =
      ⟨.ok (some "branch"), [.qsa "(a", .etextContent]⟩ ∧
    c10CexEnv.textContent "(a:nth-of-type(2))>>>nth-index-x" none = .ok (some "asis") ∧
    ("branch" : String) ≠ "asis" :=
  ⟨by decide, by decide, by decide, rfl, rfl, by decide⟩

/-- C10 (amended): a selector carrying a malformed nth-index marker falls
through the marker special case: `fill`, `set_input_files` and
`get_attribute` then issue the selector string as-is, and `text_content`
does too provided the selector does not also contain `:nth-of-type(` — in
that case `text_content` takes its own nth-of-type special case instead.
No operation errors or panics on account of the malformed marker. -/
theorem malformed_marker_falls_through (env : FrameEnv) (sel : String)
    (v : String) (fa : FillArgs) (sfa : SetInputFilesArgs) (name : String)
    (t : Option Int)
    (h1 : strStartsWith sel "(" = true)
    (h2 : containsSub sel.data nthIndexPat = true)
    (h3 : parseNthMarker sel = none) :
    (Locator.newClientSide (some env) sel).fill v fa =
      ⟨Outcome.ofE (env.fill { selector := sel, value := v, timeout := fa.timeout, noWaitAfter := fa.noWaitAfter }), [.ffill sel v]⟩ ∧
    (Locator.newClientSide (some env) sel).setInputFiles sfa =
      ⟨Outcome.ofE (env.setInputFiles { selector := sel, files := sfa.files, timeout := sfa.timeout, noWaitAfter := sfa.noWaitAfter }),
       [.fsetInputFiles sel]⟩ ∧
    (Locator.newClientSide (some env) sel).getAttribute name t =
      ⟨Outcome.ofE (env.getAttribute sel name t), [.fgetAttribute sel name]⟩ ∧
    (findSub sel.data nthOfTypePat = none →
      (Locator.newClientSide (some env) sel).textContent t =
        ⟨Outcome.ofE (env.textContent sel t), [.ftextContent sel t]⟩) := by
  have hx : strStartsWith sel "xpath=" = false := by
    unfold strStartsWith at h1 ⊢
    cases hd : sel.data with
    | nil => rw [hd] at h1; exact absurd h1 (by decide)
    | cons c cs =>
      rw [hd] at h1
      have hc : '(' = c := by
        simpa [List.isPrefixOf] using h1
      rw [← hc]
      simp [List.isPrefixOf]
  refine ⟨?_, ?_, ?_, ?_⟩
  · unfold Locator.fill
    dsimp only [Locator.newClientSide]
    rw [h3]
  · unfold Locator.setInputFiles
    dsimp only [Locator.newClientSide]
    rw [h3]
  · unfold Locator.getAttribute
    dsimp only [Locator.newClientSide]
    rw [h3]
  · intro h4
    unfold Locator.textContent
    dsimp only [Locator.newClientSide]
    rw [hx]
    simp only [Bool.false_and, Bool.false_eq_true, if_false]
    rw [h3]
    dsimp only []
    unfold parseNthOfType
    rw [h4]

/-- C10 witness: a concrete malformed marker over the trivial frame is
issued verbatim by all four operations. -/
theorem malformed_marker_falls_through_w :
    (Locator.newClientSide (some trivFrameEnv) "(input)>>>nth-index-x").fill "v" {} =
      ⟨Outcome.ofE (trivFrameEnv.fill { selector := "(input)>>>nth-index-x", value := "v", timeout := none, noWaitAfter := none }), [.ffill "(input)>>>nth-index-x" "v"]⟩ ∧
    (Locator.newClientSide (some trivFrameEnv) "(input)>>>nth-index-x").setInputFiles {} =
      ⟨Outcome.ofE (trivFrameEnv.setInputFiles { selector := "(input)>>>nth-index-x", files := [], timeout := none, noWaitAfter := none }),
       [.fsetInputFiles "(input)>>>nth-index-x"]⟩ ∧
    (Locator.newClientSide (some trivFrameEnv) "(input)>>>nth-index-x").getAttribute
        "value" none =
      ⟨Outcome.ofE (trivFrameEnv.getAttribute "(input)>>>nth-index-x" "value" none),
       [.fgetAttribute "(input)>>>nth-index-x" "value"]⟩ ∧
    (Locator.newClientSide (some trivFrameEnv) "(input)>>>nth-index-x").textContent none =
      ⟨Outcome.ofE (trivFrameEnv.textContent "(input)>>>nth-index-x" none),
       [.ftextContent "(input)>>>nth-index-x" none]⟩ := by
  have h := malformed_marker_falls_through trivFrameEnv "(input)>>>nth-index-x" "v" {} {}
    "value" none (by decide) (by decide) (by decide)
  exact ⟨h.1, h.2.1, h.2.2.1, h.2.2.2 (by decide)⟩

/-- C1 counterexample: over the compound selector `"a)>>>nth-index-0, b"`
(which contains a comma), `nth 1` synthesizes exactly the marker form the
claim describes, but the subsequent `get_attribute` is not equivalent to
`query_selector_all` over the base plus indexing at 1: the marker scan
splits at the first marker occurrence, fails to parse the index text, and
issues the synthesized selector verbatim — answering "wrong" where the
element at index 1 of the base query answers "right". -/
theorem nth_marker_roundtrip_cex :
    ((Locator.newClientSide (some c1CexEnv) c1CexBase).nth 1).res =
      .ok (.clientSide (Locator.newClientSide (some c1CexEnv) c1CexSelector)) ∧
    ((Locator.newClientSide (some c1CexEnv) c1CexSelector).getAttribute "x" none) =
      ⟨.ok (some "wrong"), [.fgetAttribute c1CexSelector "x"]⟩ ∧
    c1CexEnv.querySelectorAll c1CexBase =
      .ok [some trivElement, some (attrElement "right")] ∧
    (attrElement "right").getAttributeE "x" = .ok (some "right") ∧
    ("wrong" : String) ≠ "right" :=
  ⟨rfl, rfl, rfl, rfl, by decide⟩

/-- C1 (amended): over a comma-containing base selector, a client-side
`nth(i)` synthesizes the marker selector `(<base>)>>>nth-index-<i>` sharing
the same frame reference; provided the base selector does not itself
contain the marker infix and `i` is in usize range, a subsequent
marker-aware query such as `get_attribute` resolves it by a single
`query_selector_all` over the base selector and 0-based indexing at `i`: a
live element at position `i` answers, and an out-of-range index is the
not-found outcome. -/
theorem nth_marker_roundtrip (env : FrameEnv) (base : String) (i : Nat) (name : String)
    (h1 : base.data.contains ',' = true)
    (h2 : findSub base.data nthIndexPat = none)
    (hi : i < 2 ^ 64) :
    (Locator.newClientSide (some env) base).nth (Int.ofNat i) =
      ⟨.ok (.clientSide (Locator.newClientSide (some env) (markerSelector base i))), []⟩ ∧
    (∀ elems el t, env.querySelectorAll base = .ok elems →
      elems.get? i = some (some el) →
      (Locator.newClientSide (some env) (markerSelector base i)).getAttribute name t =
        ⟨Outcome.ofE (el.getAttributeE name), [.qsa base, .egetAttribute name]⟩) ∧
    (∀ elems t, env.querySelectorAll base = .ok elems → elems.length ≤ i →
      (Locator.newClientSide (some env) (markerSelector base i)).getAttribute name t =
        ⟨.ok none, [.qsa base]⟩) := by
  have hparse : parseNthMarker (markerSelector base i) = some (base, i) :=
    parseNthMarker_synth base i h2 hi
  refine ⟨?_, ?_, ?_⟩
  · unfold Locator.nth
    dsimp only [Locator.newClientSide]
    simp only [h1, if_true]
    rw [intToDecimal_ofNat]
    rfl
  · intro elems el t hq hg
    unfold Locator.getAttribute
    dsimp only [Locator.newClientSide]
    rw [hparse]
    dsimp only []
    rw [hq]
    dsimp only []
    rw [hg]
  · intro elems t hq hlen
    unfold Locator.getAttribute
    dsimp only [Locator.newClientSide]
    rw [hparse]
    dsimp only []
    rw [hq]
    dsimp only []
    rw [List.get?_eq_none.mpr hlen]

/-- C1 witness: `nth 1` over `"input, select"` with two matches; the
synthesized marker Locator answers with the second element's attribute. -/
theorem nth_marker_roundtrip_w :
    (Locator.newClientSide (some c1WitEnv) "input, select").nth (Int.ofNat 1) =
      ⟨.ok (.clientSide (Locator.newClientSide (some c1WitEnv)
        (markerSelector "input, select" 1))), []⟩ ∧
    (Locator.newClientSide (some c1WitEnv)
        (markerSelector "input, select" 1)).getAttribute "id" none =
      ⟨Outcome.ofE ((attrElement "email").getAttributeE "id"),
       [.qsa "input, select", .egetAttribute "id"]⟩ := by
  have h := nth_marker_roundtrip c1WitEnv "input, select" 1 "id" (by decide) (by decide)
    (by decide)
  exact ⟨h.1, h.2.1 [some trivElement, some (attrElement "email")] (attrElement "email")
    none rfl rfl⟩
